import Mathlib

/-!
Verification development for the container-launch core in src/libcrun/linux.c.
The C source is shallowly embedded: pure lookup tables and flag computations
become Lean functions; syscalls are modelled by oracle environments that give
each call its return value, and every kernel interaction is recorded in an
event trace.  Machine integers stay within 32 bits in this code, so flags are
modelled as Nat with explicit masks where the C truncates.
-/

namespace Crun

/-! Kernel mount flag constants (Linux, as used by sys/mount.h). -/

def MS_RDONLY : Nat := 1
def MS_NOSUID : Nat := 2
def MS_NODEV : Nat := 4
def MS_NOEXEC : Nat := 8
def MS_SYNCHRONOUS : Nat := 16
def MS_DIRSYNC : Nat := 128
def MS_NOATIME : Nat := 1024
def MS_NODIRATIME : Nat := 2048
def MS_BIND : Nat := 4096
def MS_REC : Nat := 16384
def MS_UNBINDABLE : Nat := 131072
def MS_PRIVATE : Nat := 262144
def MS_SLAVE : Nat := 524288
def MS_SHARED : Nat := 1048576
def MS_RELATIME : Nat := 2097152
def MS_STRICTATIME : Nat := 16777216
def MS_LAZYTIME : Nat := 33554432

/-- Two-complement value of ~MS_RDONLY truncated to the 32-bit int used for
the flags variable in do_mounts; the C statement flags &= ~MS_RDONLY is
modelled as a bitwise and with this mask. -/
def NOT_MS_RDONLY : Nat := 4294967294

/-! Kernel namespace clone flag constants (Linux, sched.h). -/

def CLONE_NEWNS : Nat := 0x00020000
def CLONE_NEWCGROUP : Nat := 0x02000000
def CLONE_NEWUTS : Nat := 0x04000000
def CLONE_NEWIPC : Nat := 0x08000000
def CLONE_NEWUSER : Nat := 0x10000000
def CLONE_NEWPID : Nat := 0x20000000
def CLONE_NEWNET : Nat := 0x40000000

/-! Generic first-match lookup over a name-to-value table, mirroring the
linear searches the C performs over its NULL-terminated static arrays. -/

def lookup_tbl (tbl : List (String × Nat)) (name : String) : Option Nat :=
  Option.map Prod.snd (tbl.find? (fun p => p.1 == name))

theorem lookup_tbl_eq_none (tbl : List (String × Nat)) (name : String) :
    lookup_tbl tbl name = none ↔ ∀ p ∈ tbl, p.1 ≠ name := by
  simp [lookup_tbl, List.find?_eq_none]

theorem lookup_tbl_mem (tbl : List (String × Nat)) (name : String) (v : Nat)
    (h : lookup_tbl tbl name = some v) : ∃ p ∈ tbl, p.1 = name ∧ p.2 = v := by
  simp only [lookup_tbl, Option.map_eq_some'] at h
  obtain ⟨p, hp, hv⟩ := h
  exact ⟨p, List.mem_of_find?_eq_some hp,
    by simpa using List.find?_some hp, hv⟩

/-! Namespace table and lookup, from the static array namespaces[] and
find_namespace in linux.c. -/

def namespaces : List (String × Nat) :=
  [("mount", CLONE_NEWNS),
   ("cgroup", CLONE_NEWCGROUP),
   ("network", CLONE_NEWNET),
   ("ipc", CLONE_NEWIPC),
   ("pid", CLONE_NEWPID),
   ("uts", CLONE_NEWUTS),
   ("user", CLONE_NEWUSER)]

def find_namespace (name : String) : Int :=
  match lookup_tbl namespaces name with
  | some v => (v : Int)
  | none => -1

/-! Propagation / mount-attribute table, from the static array
propagation_flags[] in linux.c, together with the two lookup helpers. -/

def propagation_flags : List (String × Nat) :=
  [("rshared", MS_REC ||| MS_SHARED),
   ("rslave", MS_REC ||| MS_SLAVE),
   ("rprivate", MS_REC ||| MS_PRIVATE),
   ("shared", MS_SHARED),
   ("slave", MS_SLAVE),
   ("private", MS_PRIVATE),
   ("unbindable", MS_UNBINDABLE),
   ("nosuid", MS_NOSUID),
   ("noexec", MS_NOEXEC),
   ("nodev", MS_NODEV),
   ("dirsync", MS_DIRSYNC),
   ("lazytime", MS_LAZYTIME),
   ("nodiratime", MS_NODIRATIME),
   ("noatime", MS_NOATIME),
   ("ro", MS_RDONLY),
   ("relatime", MS_RELATIME),
   ("strictatime", MS_STRICTATIME),
   ("synchronous", MS_SYNCHRONOUS)]

def get_mount_flags (name : String) : Nat :=
  (lookup_tbl propagation_flags name).getD 0

/-- Appending one unrecognized option token to the accumulated data string,
as done by the xasprintf / xstrdup branch of get_mount_flags_or_option. -/
def append_option (d : Option String) (t : String) : Option String :=
  match d with
  | some o => some (o ++ "," ++ t)
  | none => some t

def get_mount_flags_or_option (name : String) (opt : Option String) :
    Nat × Option String :=
  let flags := get_mount_flags name
  if flags ≠ 0 then (flags, opt)
  else (0, append_option opt name)

/-- Folding an explicit option list, as the options loop of do_mounts does:
flags are accumulated by bitwise or, the data string threaded through the
option pointer of get_mount_flags_or_option. -/
def fold_mount_options_loop : List String → Nat → Option String → Nat × Option String
  | [], flags, data => (flags, data)
  | tok :: rest, flags, data =>
    let r := get_mount_flags_or_option tok data
    fold_mount_options_loop rest (flags ||| r.1) r.2

def fold_mount_options (opts : List String) : Nat × Option String :=
  fold_mount_options_loop opts 0 none

/-- Default destination-keyed flags and data, from get_default_flags in
linux.c.  The C also computes a local userflags value there that it never
uses; being dead it is omitted. -/
def get_default_flags (host_uid : Nat) (destination : String) :
    Nat × Option String :=
  if destination = "/proc" then (0, none)
  else if destination = "/dev/cgroup" ∨ destination = "/sys/fs/cgroup" then
    (MS_NOEXEC ||| MS_NOSUID ||| MS_STRICTATIME, some "none,name=")
  else if destination = "/dev" then
    (MS_NOEXEC ||| MS_STRICTATIME, some "mode=755")
  else if destination = "/dev/shm" then
    (MS_NOEXEC ||| MS_NOSUID ||| MS_NODEV, some "mode=1777,size=65536k")
  else if destination = "/dev/mqueue" then
    (MS_NOEXEC ||| MS_NOSUID ||| MS_NODEV, none)
  else if destination = "/dev/pts" then
    (MS_NOEXEC ||| MS_NOSUID,
     some (if host_uid = 0 then "newinstance,ptmxmode=0666,mode=620,gid=5"
           else "newinstance,ptmxmode=0666,mode=620"))
  else if destination = "/sys" then
    (MS_NOEXEC ||| MS_NOSUID ||| MS_NODEV, none)
  else (0, none)

/-! Data model, after the oci_container fields that linux.c reads.  The
nested def->linux / def->root / def->process records are flattened. -/

structure namespace_req where
  type : String
  path : Option String
  deriving Repr, DecidableEq

structure mount_req where
  destination : String
  source : Option String
  type : String
  options : Option (List String)
  deriving Repr, DecidableEq

structure rlimit_req where
  type : String
  soft : Nat
  hard : Nat
  deriving Repr, DecidableEq

structure crun_container where
  namespaces : List namespace_req
  mounts : List mount_req
  rootfs_propagation : Option String
  root_path : String
  host_uid : Nat
  host_gid : Nat
  rlimits : Option (List rlimit_req)
  deriving Repr, DecidableEq

/-- Trace of the kernel interactions the claims observe.  A value is recorded
at the point the corresponding call is issued in the C control flow. -/
inductive syscall_ev where
  | unshare_ev (flags : Nat)
  | setns_ev (path : String) (nstype : Int)
  | ensure_dir (target : String)
  | mount_ev (source target fstype : String) (flags : Nat) (data : Option String)
  | write_ev (path content : String)
  deriving Repr, DecidableEq

/-- Oracle environment: the return value of each kernel primitive, so that
the embedded functions stay pure while covering every outcome the C code can
observe.  crun_ensure_directory and write_file set the error message
themselves in the C, hence the Except-valued oracles for those two. -/
structure sys_env where
  ensureDir : String → Except String Unit
  mount : String → String → String → Nat → Option String → Int
  openDir : String → Int
  fchdir : Int → Int
  pivot_root : String → String → Int
  umount2 : String → Int
  chdir : String → Int
  unshare : Nat → Int
  openFile : String → Int
  setns : Int → Int → Int
  writeFile : String → String → Except String Unit
  setrlimit : Int → Nat → Nat → Int

/-! Namespace Isolator: libcrun_set_namespaces in linux.c.  The first loop
validates every type and accumulates the clone flags; the flags are then
stored into container->unshare_flags (the Option Nat component below, none
when the store was never reached), unshare is called once, and the second
loop joins every namespace that carries an explicit path. -/

def set_ns_loop1 : List namespace_req → Nat → Except String Nat
  | [], flags => .ok flags
  | r :: rest, flags =>
    let value := find_namespace r.type
    if value < 0 then .error ("invalid namespace type: " ++ r.type)
    else set_ns_loop1 rest (flags ||| value.toNat)

def set_ns_loop2 (env : sys_env) : List namespace_req → Except String Int × List syscall_ev
  | [] => (.ok 0, [])
  | r :: rest =>
    match r.path with
    | none => set_ns_loop2 env rest
    | some p =>
      let value := find_namespace r.type
      let fd := env.openFile p
      if fd < 0 then (.error ("open \x27" ++ p ++ "\x27"), [])
      else if env.setns fd value < 0 then
        (.error ("setns \x27" ++ p ++ "\x27"), [.setns_ev p value])
      else
        let rr := set_ns_loop2 env rest
        (rr.1, .setns_ev p value :: rr.2)

def libcrun_set_namespaces (env : sys_env) (c : crun_container) :
    Except String Int × Option Nat × List syscall_ev :=
  match set_ns_loop1 c.namespaces 0 with
  | .error e => (.error e, none, [])
  | .ok flags =>
    if env.unshare flags < 0 then (.error "unshare", some flags, [.unshare_ev flags])
    else
      let r := set_ns_loop2 env c.namespaces
      (r.1, some flags, .unshare_ev flags :: r.2)

/-! Mount Plan Executor: do_mounts in linux.c.  The loop body computes the
target path, ensures its directory exists, derives flags and data, forces
the bind flag for bind mounts, clears the read-only bit, resolves the
source, skips cgroup mounts, and issues the mount call. -/

def target_path (rootfs : Option String) (destination : String) : String :=
  match rootfs with
  | some r => r ++ "/" ++ destination.drop 1
  | none => destination

/-- Flag and data computation for one mount request: lines 265 to 279 of
linux.c (default table or option fold, then bind forcing, then the
read-only clear). -/
def mount_req_flags (host_uid : Nat) (m : mount_req) : Nat × Option String :=
  let fd := match m.options with
    | none => get_default_flags host_uid m.destination
    | some opts => fold_mount_options opts
  let flags := if m.type == "bind" then fd.1 ||| MS_BIND else fd.1
  (flags &&& NOT_MS_RDONLY, fd.2)

def do_mounts_loop (env : sys_env) (host_uid : Nat) (rootfs : Option String) :
    List mount_req → Except String Unit × List syscall_ev
  | [] => (.ok (), [])
  | m :: rest =>
    let target := target_path rootfs m.destination
    match env.ensureDir target with
    | .error e => (.error e, [.ensure_dir target])
    | .ok _ =>
      let fd := mount_req_flags host_uid m
      let source := m.source.getD m.type
      if m.type == "cgroup" then
        let r := do_mounts_loop env host_uid rootfs rest
        (r.1, .ensure_dir target :: r.2)
      else if env.mount source target m.type fd.1 fd.2 < 0 then
        (.error ("mount \x27" ++ m.destination ++ "\x27"),
         [.ensure_dir target, .mount_ev source target m.type fd.1 fd.2])
      else
        let r := do_mounts_loop env host_uid rootfs rest
        (r.1, .ensure_dir target :: .mount_ev source target m.type fd.1 fd.2 :: r.2)

/-- Whole do_mounts function.  Control falls off the end of the C function
when the loop completes, so the int it returns on that path is unspecified;
the parameter undef stands for that indeterminate value. -/
def do_mounts (env : sys_env) (c : crun_container) (rootfs : Option String)
    (undef : Int) : Except String Int × List syscall_ev :=
  let r := do_mounts_loop env c.host_uid rootfs c.mounts
  (match r.1 with
   | .error e => .error e
   | .ok _ => .ok undef, r.2)

/-! Root Transition: do_pivot and libcrun_set_mounts in linux.c. -/

def do_pivot (env : sys_env) (rootfs : String) : Except String Int :=
  let oldrootfd := env.openDir "/"
  let newrootfd := env.openDir rootfs
  if oldrootfd < 0 then .error "open \x27/\x27"
  else if newrootfd < 0 then .error ("open \x27" ++ rootfs ++ "\x27")
  else if env.fchdir newrootfd < 0 then .error ("fchdir \x27" ++ rootfs ++ "\x27")
  else if env.pivot_root "." "." < 0 then .error "pivot_root"
  else if env.fchdir oldrootfd < 0 then .error ("fchdir \x27" ++ rootfs ++ "\x27")
  else if env.mount "" "." "" (MS_PRIVATE ||| MS_REC) (some "") < 0 then
    .error ("mount oldroot rprivate \x27" ++ rootfs ++ "\x27")
  else if env.umount2 "." < 0 then .error "umount oldroot"
  else if env.chdir "/" < 0 then .error "chdir to newroot"
  else .ok 0

/-- Root transition entry point, libcrun_set_mounts.  The rootfsPropagation
flags come from the propagation table when a name is configured, otherwise
default to MS_REC | MS_SLAVE; then the root is remounted, the new root bind
mounted, do_mounts run and the pivot performed.  The undef parameter is
threaded to do_mounts for its unspecified fall-through return value.  The
trace records the two mount calls made here followed by the do_mounts
trace (the pivot sequence is observed through the result only). -/
def libcrun_set_mounts (env : sys_env) (c : crun_container) (rootfs : String)
    (undef : Int) : Except String Int × List syscall_ev :=
  let rootfsPropagation : Nat :=
    match c.rootfs_propagation with
    | some name => get_mount_flags name
    | none => MS_REC ||| MS_SLAVE
  let ev1 := syscall_ev.mount_ev "" "/" "" (MS_REC ||| rootfsPropagation) none
  if env.mount "" "/" "" (MS_REC ||| rootfsPropagation) none < 0 then
    (.error "remount root", [ev1])
  else
    let ev2 := syscall_ev.mount_ev c.root_path rootfs ""
      (MS_BIND ||| MS_REC ||| rootfsPropagation) none
    if env.mount c.root_path rootfs "" (MS_BIND ||| MS_REC ||| rootfsPropagation) none < 0 then
      (.error "mount rootfs", [ev1, ev2])
    else
      let dm := do_mounts env c (some rootfs) undef
      match dm.1 with
      | .error e => (.error e, ev1 :: ev2 :: dm.2)
      | .ok v =>
        if v < 0 then (.ok v, ev1 :: ev2 :: dm.2)
        else
          match do_pivot env rootfs with
          | .error e => (.error e, ev1 :: ev2 :: dm.2)
          | .ok p =>
            if p < 0 then (.ok p, ev1 :: ev2 :: dm.2)
            else (.ok 0, ev1 :: ev2 :: dm.2)

/-! User-Namespace Identity Mapper: libcrun_set_usernamespace in linux.c.
The C function has no return statement after the last write, so undef again
stands for the unspecified value produced on the all-writes-succeeded
path.  The trace records each write_file call in issue order. -/

def libcrun_set_usernamespace (env : sys_env) (host_uid host_gid : Nat)
    (undef : Int) : Except String Int × List syscall_ev :=
  let uid_map := if host_uid = 0 then "0 0 65536"
                 else "0 " ++ toString host_uid ++ " 1"
  let gid_map := if host_uid = 0 then "0 0 65536"
                 else "0 " ++ toString host_gid ++ " 1"
  let ev1 := syscall_ev.write_ev "/proc/self/setgroups" "deny"
  match env.writeFile "/proc/self/setgroups" "deny" with
  | .error e => (.error e, [ev1])
  | .ok _ =>
    if host_uid ≠ 0 then
      let ev2 := syscall_ev.write_ev "/proc/self/gid_map" gid_map
      match env.writeFile "/proc/self/gid_map" gid_map with
      | .error e => (.error e, [ev1, ev2])
      | .ok _ =>
        let ev3 := syscall_ev.write_ev "/proc/self/uid_map" uid_map
        match env.writeFile "/proc/self/uid_map" uid_map with
        | .error e => (.error e, [ev1, ev2, ev3])
        | .ok _ => (.ok undef, [ev1, ev2, ev3])
    else
      let ev3 := syscall_ev.write_ev "/proc/self/uid_map" uid_map
      match env.writeFile "/proc/self/uid_map" uid_map with
      | .error e => (.error e, [ev1, ev3])
      | .ok _ => (.ok undef, [ev1, ev3])

/-! Capability Manager: set_required_caps in linux.c.  Each prctl outcome is
a pair of return value and errno; EINVAL and EPERM are tolerated for the
ambient and bounding loops. -/

def EPERM : Nat := 1
def EINVAL : Nat := 22
def CAP_LAST_CAP : Nat := 40

def cap_to_mask_0 (x : Nat) : Nat := 1 <<< (x % 32)
def cap_to_mask_1 (x : Nat) : Nat := cap_to_mask_0 (x - 32)

structure all_caps_s where
  effective : Nat × Nat
  permitted : Nat × Nat
  inheritable : Nat × Nat
  ambient : Nat × Nat
  bounding : Nat × Nat
  deriving Repr, DecidableEq

structure cap_env where
  ambient_clear_all : Int × Nat
  ambient_raise : Nat → Int × Nat
  capbset_drop : Nat → Int × Nat
  capset : Int × Nat
  set_no_new_privs : Int

def tolerated (r : Int × Nat) : Bool :=
  !(r.1 < 0) || r.2 == EINVAL || r.2 == EPERM

def ambient_raise_loop (env : cap_env) (ambient : Nat × Nat) :
    List Nat → Except String Unit
  | [] => .ok ()
  | cap :: rest =>
    if (cap < 32 ∧ cap_to_mask_0 cap &&& ambient.1 ≠ 0)
        ∨ (32 ≤ cap ∧ cap_to_mask_1 cap &&& ambient.2 ≠ 0) then
      if tolerated (env.ambient_raise cap) then ambient_raise_loop env ambient rest
      else .error "prctl ambient raise"
    else ambient_raise_loop env ambient rest

def bounding_drop_loop (env : cap_env) (bounding : Nat × Nat) :
    List Nat → Except String Unit
  | [] => .ok ()
  | cap :: rest =>
    if (cap < 32 ∧ cap_to_mask_0 cap &&& bounding.1 = 0)
        ∨ (32 ≤ cap ∧ cap_to_mask_1 cap &&& bounding.2 = 0) then
      if tolerated (env.capbset_drop cap) then bounding_drop_loop env bounding rest
      else .error "prctl drop bounding"
    else bounding_drop_loop env bounding rest

/-- Capability application, set_required_caps.  On the capset step the C
source stores the boolean comparison into ret, literally
ret = capset (&hdr, data) < 0, and then tests ret < 0; the translation keeps
that exact computation. -/
def set_required_caps (env : cap_env) (caps : all_caps_s) (no_new_privs : Int) :
    Except String Int :=
  if !(tolerated env.ambient_clear_all) then .error "prctl reset ambient"
  else
    match ambient_raise_loop env caps.ambient (List.range (CAP_LAST_CAP + 1)) with
    | .error e => .error e
    | .ok _ =>
      match bounding_drop_loop env caps.bounding (List.range (CAP_LAST_CAP + 1)) with
      | .error e => .error e
      | .ok _ =>
        let ret : Int := if env.capset.1 < 0 then 1 else 0
        if ret < 0 then .error "capset"
        else if no_new_privs ≠ 0 then
          if env.set_no_new_privs < 0 then .error "no new privs" else .ok 0
        else .ok 0

/-! Resource Limit Setter: libcrun_set_rlimits in linux.c. -/

def rlimits : List (String × Nat) :=
  [("RLIMIT_AS", 9),
   ("RLIMIT_CORE", 4),
   ("RLIMIT_CPU", 0),
   ("RLIMIT_DATA", 2),
   ("RLIMIT_FSIZE", 1),
   ("RLIMIT_LOCKS", 10),
   ("RLIMIT_MEMLOCK", 8),
   ("RLIMIT_MSGQUEUE", 12),
   ("RLIMIT_NICE", 13),
   ("RLIMIT_NOFILE", 7),
   ("RLIMIT_NPROC", 6),
   ("RLIMIT_RSS", 5),
   ("RLIMIT_RTPRIO", 14),
   ("RLIMIT_RTTIME", 15),
   ("RLIMIT_SIGPENDING", 11),
   ("RLIMIT_STACK", 3)]

def get_rlimit_resource (name : String) : Int :=
  match lookup_tbl rlimits name with
  | some v => (v : Int)
  | none => -1

def rlimit_loop (env : sys_env) : List rlimit_req → Except String Unit
  | [] => .ok ()
  | r :: rest =>
    let resource := get_rlimit_resource r.type
    if resource < 0 then .error ("invalid rlimit \x27" ++ r.type ++ "\x27")
    else if env.setrlimit resource r.soft r.hard < 0 then
      .error ("setrlimit \x27" ++ r.type ++ "\x27")
    else rlimit_loop env rest

/-- Resource limit entry point.  A NULL rlimit list returns 0 explicitly;
when the loop completes, control falls off the end of the C function and
undef stands for the unspecified value returned there. -/
def libcrun_set_rlimits (env : sys_env) (c : crun_container) (undef : Int) :
    Except String Int :=
  match c.rlimits with
  | none => .ok 0
  | some l =>
    match rlimit_loop env l with
    | .error e => .error e
    | .ok _ => .ok undef

/-! Observation helpers used by the theorem statements. -/

def is_unshare_ev : syscall_ev → Bool
  | .unshare_ev _ => true
  | _ => false

/-- Paths of the write_file calls in a trace, in order. -/
def write_paths (tr : List syscall_ev) : List String :=
  tr.filterMap (fun e =>
    match e with
    | .write_ev p _ => some p
    | _ => none)

/-- Bitwise or of the namespace flags of every request in the list,
independent of any join path, as the spec words it. -/
def or_ns_flags (l : List namespace_req) : Nat :=
  (l.map (fun r => (find_namespace r.type).toNat)).foldl (fun a b => a ||| b) 0

/-- Membership of an option token in the propagation and attribute table. -/
def in_table (t : String) : Bool :=
  propagation_flags.any (fun p => p.1 == t)

/-- Comma join of a token list in input order, none when the list is empty,
as the spec describes the accumulated data string. -/
def comma_join : List String → Option String
  | [] => none
  | t :: ts => some (ts.foldl (fun a b => a ++ "," ++ b) t)

/-- Modelled from the words of the spec, section 4.2: the destination keyed
default table, one row per listed destination, with the gid=5 suffix for
/dev/pts exactly when the host identity is privileged, and the fallback row
(0, no data) for any unlisted destination. -/
def spec_default_lookup (host_privileged : Bool) (destination : String) :
    Nat × Option String :=
  if destination = "/proc" then (0, none)
  else if destination = "/dev/cgroup" then
    (MS_NOEXEC ||| MS_NOSUID ||| MS_STRICTATIME, some "none,name=")
  else if destination = "/sys/fs/cgroup" then
    (MS_NOEXEC ||| MS_NOSUID ||| MS_STRICTATIME, some "none,name=")
  else if destination = "/dev" then
    (MS_NOEXEC ||| MS_STRICTATIME, some "mode=755")
  else if destination = "/dev/shm" then
    (MS_NOEXEC ||| MS_NOSUID ||| MS_NODEV, some "mode=1777,size=65536k")
  else if destination = "/dev/mqueue" then
    (MS_NOEXEC ||| MS_NOSUID ||| MS_NODEV, none)
  else if destination = "/dev/pts" then
    (MS_NOEXEC ||| MS_NOSUID,
     some (if host_privileged then "newinstance,ptmxmode=0666,mode=620,gid=5"
           else "newinstance,ptmxmode=0666,mode=620"))
  else if destination = "/sys" then
    (MS_NOEXEC ||| MS_NOSUID ||| MS_NODEV, none)
  else (0, none)

/-! Concrete environments and inputs for the closed instances. -/

/-- Environment in which every kernel call succeeds. -/
def happy_env : sys_env :=
  { ensureDir := fun _ => .ok ()
    mount := fun _ _ _ _ _ => 0
    openDir := fun _ => 3
    fchdir := fun _ => 0
    pivot_root := fun _ _ => 0
    umount2 := fun _ => 0
    chdir := fun _ => 0
    unshare := fun _ => 0
    openFile := fun _ => 4
    setns := fun _ _ => 0
    writeFile := fun _ _ => .ok ()
    setrlimit := fun _ _ _ => 0 }

/-- Capability environment in which only the bulk capset call fails (with
errno EPERM) and every other call succeeds. -/
def capset_fail_env : cap_env :=
  { ambient_clear_all := (0, 0)
    ambient_raise := fun _ => (0, 0)
    capbset_drop := fun _ => (0, 0)
    capset := (-1, EPERM)
    set_no_new_privs := 0 }

def zero_caps : all_caps_s :=
  { effective := (0, 0), permitted := (0, 0), inheritable := (0, 0)
    ambient := (0, 0), bounding := (0, 0) }

/-- Container whose rootfsPropagation names a mode absent from the
propagation table, with an otherwise empty definition. -/
def bogus_propagation_c : crun_container :=
  { namespaces := [], mounts := [], rootfs_propagation := some "bogus"
    root_path := "/spec/root", host_uid := 0, host_gid := 0, rlimits := none }

/-- Container with no mounts and a single valid rlimit request. -/
def small_c : crun_container :=
  { namespaces := [], mounts := [], rootfs_propagation := none
    root_path := "/spec/root", host_uid := 1000, host_gid := 1000
    rlimits := some [⟨"RLIMIT_NOFILE", 100, 200⟩] }

/-- Container with one namespace request of an unknown type. -/
def bad_ns_c : crun_container :=
  { namespaces := [⟨"bogus", none⟩], mounts := [], rootfs_propagation := none
    root_path := "/spec/root", host_uid := 0, host_gid := 0, rlimits := none }

/-- Container with recognized namespace requests, one carrying a join path. -/
def two_ns_c : crun_container :=
  { namespaces := [⟨"pid", none⟩, ⟨"network", some "/proc/1/ns/net"⟩]
    mounts := [], rootfs_propagation := none
    root_path := "/spec/root", host_uid := 0, host_gid := 0, rlimits := none }

/-! Bridging lemmas between table membership and the lookup functions. -/

theorem lookup_tbl_isSome (tbl : List (String × Nat)) (name : String) :
    (lookup_tbl tbl name).isSome ↔ ∃ p ∈ tbl, p.1 = name := by
  simp [lookup_tbl, List.find?_isSome]

theorem propagation_flags_pos : ∀ p ∈ propagation_flags, p.2 ≠ 0 := by decide

theorem get_mount_flags_eq_zero (t : String) :
    get_mount_flags t = 0 ↔ ∀ p ∈ propagation_flags, p.1 ≠ t := by
  constructor
  · intro h
    cases hl : lookup_tbl propagation_flags t with
    | none => exact (lookup_tbl_eq_none _ _).mp hl
    | some v =>
      obtain ⟨p, hp, hname, hv⟩ := lookup_tbl_mem _ _ _ hl
      rw [get_mount_flags, hl] at h
      exact absurd (hv.trans h) (propagation_flags_pos p hp)
  · intro h
    rw [get_mount_flags, (lookup_tbl_eq_none _ _).mpr h]
    rfl

theorem in_table_iff (t : String) : in_table t = true ↔ get_mount_flags t ≠ 0 := by
  rw [in_table, List.any_eq_true]
  constructor
  · intro h hz
    obtain ⟨p, hp, he⟩ := h
    exact (get_mount_flags_eq_zero t).mp hz p hp (by simpa using he)
  · intro h
    by_contra hc
    push_neg at hc
    exact h ((get_mount_flags_eq_zero t).mpr (by
      intro p hp he
      exact hc p hp (by simpa using he)))

theorem find_namespace_nonneg (t : String)
    (h : ∃ p ∈ namespaces, p.1 = t) : ¬ find_namespace t < 0 := by
  obtain ⟨v, hv⟩ := Option.isSome_iff_exists.mp ((lookup_tbl_isSome namespaces t).mpr h)
  rw [find_namespace, hv]
  simp

theorem find_namespace_neg (t : String)
    (h : ∀ p ∈ namespaces, p.1 ≠ t) : find_namespace t < 0 := by
  rw [find_namespace, (lookup_tbl_eq_none _ _).mpr h]
  decide

/-! Claim C1: the bulk capset step of set_required_caps. -/

/-- Claim C1 (code bug exhibited): the spec says a failure of the bulk
capability-set operation is fatal, but the source stores the comparison
result, ret = capset (&hdr, data) < 0, and then tests ret < 0, which never
holds; with every other call succeeding and capset failing with EPERM,
set_required_caps still returns success. -/
theorem set_required_caps_ignores_capset_failure :
    capset_fail_env.capset.1 < 0 ∧
    set_required_caps capset_fail_env zero_caps 0 = .ok 0 := by
  constructor
  · decide
  · rfl

/-! Claim C4: the entry points are supposed to return 0 after completing all
steps, but do_mounts, libcrun_set_usernamespace and libcrun_set_rlimits all
fall off the end of the function instead, so the value handed to the caller
is whatever indeterminate value the missing return leaves behind. -/

/-- Claim C4 (code bug exhibited): on runs that complete every step without
a fatal error, the result of the mount plan, the identity mapper and the
rlimit setter is the modelled indeterminate fall-through value, not the
success value 0: instantiating that value with 7 and with -3 yields those
values as results. -/
theorem components_fall_off_end :
    (do_mounts happy_env small_c none 7).1 = .ok 7 ∧
    (do_mounts happy_env small_c none (-3)).1 = .ok (-3) ∧
    (libcrun_set_usernamespace happy_env 1000 1000 7).1 = .ok 7 ∧
    (libcrun_set_usernamespace happy_env 1000 1000 (-3)).1 = .ok (-3) ∧
    libcrun_set_rlimits happy_env small_c 7 = .ok 7 ∧
    libcrun_set_rlimits happy_env small_c (-3) = .ok (-3) :=
  ⟨rfl, rfl, rfl, rfl, rfl, rfl⟩

/-! Claim C5: an unrecognized namespace type aborts before any unshare. -/

theorem set_ns_loop1_error :
    ∀ (l : List namespace_req), (∃ r ∈ l, find_namespace r.type < 0) →
    ∀ acc, ∃ t, (∃ r ∈ l, r.type = t) ∧ find_namespace t < 0 ∧
      set_ns_loop1 l acc = .error ("invalid namespace type: " ++ t) := by
  intro l
  induction l with
  | nil => intro h; simp at h
  | cons r rest ih =>
    intro h acc
    by_cases hr : find_namespace r.type < 0
    · exact ⟨r.type, ⟨r, List.mem_cons_self r rest, rfl⟩, hr,
        by simp [set_ns_loop1, hr]⟩
    · have hrest : ∃ r ∈ rest, find_namespace r.type < 0 := by
        obtain ⟨q, hq, hneg⟩ := h
        rcases List.mem_cons.mp hq with heq | hmem
        · exact absurd (heq ▸ hneg) hr
        · exact ⟨q, hmem, hneg⟩
      obtain ⟨t, ⟨q, hq, ht⟩, hneg, heq⟩ :=
        ih hrest (acc ||| (find_namespace r.type).toNat)
      exact ⟨t, ⟨q, List.mem_cons_of_mem r hq, ht⟩, hneg,
        by simp [set_ns_loop1, hr, heq]⟩

/-- Claim C5: whenever some namespace request has a type string that is not
a key of the namespace table, libcrun_set_namespaces fails with an invalid
namespace type error naming such a string, and the trace is empty, so no
unshare call is attempted. -/
theorem set_namespaces_invalid_type (env : sys_env) (c : crun_container)
    (h : ∃ r ∈ c.namespaces, ∀ p ∈ namespaces, p.1 ≠ r.type) :
    ∃ t, (∃ r ∈ c.namespaces, r.type = t) ∧ (∀ p ∈ namespaces, p.1 ≠ t) ∧
      libcrun_set_namespaces env c =
        (.error ("invalid namespace type: " ++ t), none, []) := by
  have h' : ∃ r ∈ c.namespaces, find_namespace r.type < 0 := by
    obtain ⟨r, hr, habs⟩ := h
    exact ⟨r, hr, find_namespace_neg r.type habs⟩
  obtain ⟨t, hmem, hneg, heq⟩ := set_ns_loop1_error c.namespaces h' 0
  refine ⟨t, hmem, ?_, by simp [libcrun_set_namespaces, heq]⟩
  intro p hp he
  exact absurd (find_namespace_nonneg t ⟨p, hp, he⟩) (not_not_intro hneg)

/-- Claim C5 witness at a concrete container whose single namespace request
has the unknown type bogus. -/
theorem set_namespaces_invalid_type_witness :
    ∃ t, (∃ r ∈ bad_ns_c.namespaces, r.type = t) ∧ (∀ p ∈ namespaces, p.1 ≠ t) ∧
      libcrun_set_namespaces happy_env bad_ns_c =
        (.error ("invalid namespace type: " ++ t), none, []) :=
  set_namespaces_invalid_type happy_env bad_ns_c
    ⟨⟨"bogus", none⟩, by decide, by decide⟩

/-! Claim C6: the combined unshare flags over recognized requests. -/

theorem set_ns_loop1_ok :
    ∀ (l : List namespace_req), (∀ r ∈ l, ¬ find_namespace r.type < 0) →
    ∀ acc, set_ns_loop1 l acc =
      .ok ((l.map (fun r => (find_namespace r.type).toNat)).foldl
        (fun a b => a ||| b) acc) := by
  intro l
  induction l with
  | nil => intro _ acc; rfl
  | cons r rest ih =>
    intro h acc
    have hr := h r (List.mem_cons_self r rest)
    simp only [set_ns_loop1, if_neg hr, List.map_cons, List.foldl_cons]
    exact ih (fun q hq => h q (List.mem_cons_of_mem r hq)) _

theorem set_ns_loop2_no_unshare (env : sys_env) :
    ∀ l, ((set_ns_loop2 env l).2.filter is_unshare_ev) = [] := by
  intro l
  induction l with
  | nil => rfl
  | cons r rest ih =>
    unfold set_ns_loop2
    cases hp : r.path with
    | none => simp only [hp]; exact ih
    | some p =>
      simp only [hp]
      split
      · rfl
      · split
        · simp [is_unshare_ev]
        · simp [is_unshare_ev, ih]

/-- Claim C6: when every namespace request type is a key of the namespace
table, the value stored into unshare_flags is the bitwise or of the flags of
all requests (join path or not), and the trace contains exactly one unshare
call, carrying that same value. -/
theorem set_namespaces_or_flags (env : sys_env) (c : crun_container)
    (h : ∀ r ∈ c.namespaces, ∃ p ∈ namespaces, p.1 = r.type) :
    (libcrun_set_namespaces env c).2.1 = some (or_ns_flags c.namespaces) ∧
    (libcrun_set_namespaces env c).2.2.filter is_unshare_ev =
      [syscall_ev.unshare_ev (or_ns_flags c.namespaces)] := by
  have h' : ∀ r ∈ c.namespaces, ¬ find_namespace r.type < 0 :=
    fun r hr => find_namespace_nonneg r.type (h r hr)
  have hloop := set_ns_loop1_ok c.namespaces h' 0
  simp only [libcrun_set_namespaces, hloop, or_ns_flags]
  split
  · exact ⟨rfl, by simp [is_unshare_ev]⟩
  · exact ⟨rfl, by simp [is_unshare_ev, set_ns_loop2_no_unshare]⟩

/-- Claim C6 witness at a concrete list of a pid request and a network
request carrying a join path: the stored and unshared flag word is
CLONE_NEWPID layered with CLONE_NEWNET. -/
theorem set_namespaces_or_flags_witness :
    (libcrun_set_namespaces happy_env two_ns_c).2.1 =
      some (or_ns_flags two_ns_c.namespaces) ∧
    (libcrun_set_namespaces happy_env two_ns_c).2.2.filter is_unshare_ev =
      [syscall_ev.unshare_ev (or_ns_flags two_ns_c.namespaces)] :=
  set_namespaces_or_flags happy_env two_ns_c (by decide)

/-! Claim C7: option tokens partition into flag bits and data string. -/

theorem fold_mount_options_go :
    ∀ (opts : List String) (a : Nat) (d : Option String),
    fold_mount_options_loop opts a d =
      (((opts.filter (fun t => in_table t)).map get_mount_flags).foldl
        (fun x y => x ||| y) a,
       (opts.filter (fun t => !(in_table t))).foldl
        (fun x y => append_option x y) d) := by
  intro opts
  induction opts with
  | nil => intro a d; rfl
  | cons t ts ih =>
    intro a d
    by_cases ht : get_mount_flags t = 0
    · have hin : in_table t = false := by
        rw [← Bool.not_eq_true, in_table_iff]
        exact not_not_intro ht
      simp only [fold_mount_options_loop, get_mount_flags_or_option, ht,
        ne_eq, not_true_eq_false, if_false, ite_false]
      rw [ih]
      simp [List.filter_cons, hin]
    · have hin : in_table t = true := (in_table_iff t).mpr ht
      simp only [fold_mount_options_loop, get_mount_flags_or_option, ht,
        ne_eq, not_false_eq_true, if_true, ite_true]
      rw [ih]
      simp [List.filter_cons, hin]

theorem append_option_foldl :
    ∀ (l : List String) (s : String),
    l.foldl (fun x y => append_option x y) (some s) =
      some (l.foldl (fun a b => a ++ "," ++ b) s) := by
  intro l
  induction l with
  | nil => intro s; rfl
  | cons t ts ih =>
    intro s
    rw [List.foldl_cons, List.foldl_cons]
    exact ih (s ++ "," ++ t)

theorem append_option_foldl_none (l : List String) :
    l.foldl (fun x y => append_option x y) none = comma_join l := by
  cases l with
  | nil => rfl
  | cons t ts =>
    rw [List.foldl_cons]
    exact append_option_foldl ts t

/-- Claim C7: folding an explicit option list yields, as flag word, exactly
the or of the table flags of the tokens present in the propagation and
attribute table, and, as data string, exactly the comma join of the tokens
absent from the table in input order; each token thus lands in exactly one
of the two outputs. -/
theorem mount_options_partition (opts : List String) :
    fold_mount_options opts =
      (((opts.filter (fun t => in_table t)).map get_mount_flags).foldl
        (fun x y => x ||| y) 0,
       comma_join (opts.filter (fun t => !(in_table t)))) := by
  rw [fold_mount_options, fold_mount_options_go, append_option_foldl_none]

/-! Claim C8: destination-keyed default flags match the spec table. -/

/-- Claim C8: for every host uid and destination, the default flags and data
computed by get_default_flags are exactly the row of the spec table keyed by
the destination (with the host-privileged variant for /dev/pts), and the
fallback (0, no data) for unlisted destinations. -/
theorem default_flags_match_spec_table (uid : Nat) (dest : String) :
    get_default_flags uid dest = spec_default_lookup (uid == 0) dest := by
  unfold get_default_flags spec_default_lookup
  split_ifs <;> simp_all

/-! Claim C9: the flag word of every issued mount never carries MS_RDONLY,
and carries MS_BIND whenever the request type is bind. -/

theorem lor_land_self (x b : Nat) : (x ||| b) &&& b = b := by
  apply Nat.eq_of_testBit_eq
  intro i
  simp [Nat.testBit_land, Nat.testBit_lor]
  cases hb : b.testBit i <;> simp [hb]

theorem mount_req_flags_props (uid : Nat) (m : mount_req) :
    (mount_req_flags uid m).1 &&& MS_RDONLY = 0 ∧
    (m.type = "bind" → (mount_req_flags uid m).1 &&& MS_BIND = MS_BIND) := by
  unfold mount_req_flags
  constructor
  · simp only [MS_RDONLY, NOT_MS_RDONLY]
    rw [Nat.land_assoc]
    norm_num
  · intro hb
    have hbeq : (m.type == "bind") = true := by simp [hb]
    simp only [hbeq, if_true, ite_true]
    rw [Nat.land_assoc, show NOT_MS_RDONLY &&& MS_BIND = MS_BIND from by decide]
    exact lor_land_self _ MS_BIND

/-- Claim C9: every mount call issued by the mount plan executor has a flag
word with the read-only bit cleared, even when the options or defaults would
set it, and has the bind flag set whenever the request type is bind. -/
theorem do_mounts_no_rdonly (env : sys_env) (uid : Nat) (rootfs : Option String)
    (reqs : List mount_req) (s t ty : String) (fl : Nat) (d : Option String)
    (h : syscall_ev.mount_ev s t ty fl d ∈ (do_mounts_loop env uid rootfs reqs).2) :
    fl &&& MS_RDONLY = 0 ∧ (ty = "bind" → fl &&& MS_BIND = MS_BIND) := by
  induction reqs with
  | nil => simp [do_mounts_loop] at h
  | cons m rest ih =>
    simp only [do_mounts_loop] at h
    split at h
    · simp at h
    · split at h
      · rw [List.mem_cons] at h
        rcases h with h | h
        · simp at h
        · exact ih h
      · split at h
        · simp only [List.mem_cons] at h
          rcases h with h | h | h
          · simp at h
          · obtain ⟨_, _, hty, hfl, _⟩ := syscall_ev.mount_ev.inj h
            subst hty hfl
            exact mount_req_flags_props uid m
          · simp at h
        · rw [List.mem_cons] at h
          rcases h with h | h
          · simp at h
          · rw [List.mem_cons] at h
            rcases h with h | h
            · obtain ⟨_, _, hty, hfl, _⟩ := syscall_ev.mount_ev.inj h
              subst hty hfl
              exact mount_req_flags_props uid m
            · exact ih h

/-- Claim C9 witness: a bind request whose only option is the token ro
reaches the mount call with flags MS_BIND alone; the read-only bit requested
by the option has been cleared and the bind flag forced. -/
theorem do_mounts_no_rdonly_witness :
    (4096 : Nat) &&& MS_RDONLY = 0 ∧
    ("bind" = "bind" → (4096 : Nat) &&& MS_BIND = MS_BIND) :=
  do_mounts_no_rdonly happy_env 0 none [⟨"/a", none, "bind", some ["ro"]⟩]
    "bind" "/a" "bind" 4096 none (by decide)

/-! Claim C10: a cgroup-typed request still creates the target directory and
fails fatally on a directory-creation error, but issues no mount call and
continues with the remaining requests. -/

/-- Claim C10: for a cgroup-typed mount request at the head of the remaining
plan, the executor calls ensure-directory on the computed target; if that
fails the whole run fails with that error, and if it succeeds no mount call
is recorded for the request and execution continues with the rest. -/
theorem cgroup_requests_skip_mount (env : sys_env) (uid : Nat)
    (rootfs : Option String) (m : mount_req) (rest : List mount_req)
    (h : m.type = "cgroup") :
    (∀ e, env.ensureDir (target_path rootfs m.destination) = .error e →
      do_mounts_loop env uid rootfs (m :: rest) =
        (.error e, [.ensure_dir (target_path rootfs m.destination)])) ∧
    (env.ensureDir (target_path rootfs m.destination) = .ok () →
      do_mounts_loop env uid rootfs (m :: rest) =
        ((do_mounts_loop env uid rootfs rest).1,
         .ensure_dir (target_path rootfs m.destination) ::
           (do_mounts_loop env uid rootfs rest).2)) := by
  have hb : (m.type == "cgroup") = true := by simp [h]
  constructor
  · intro e he
    simp only [do_mounts_loop, he]
  · intro he
    simp only [do_mounts_loop, he, hb, if_true, ite_true]

/-- Claim C10 witness: a concrete cgroup request in the all-success
environment produces only the directory-creation event and no mount event,
and the run continues to a successful end. -/
theorem cgroup_requests_skip_mount_witness :
    do_mounts_loop happy_env 0 none [⟨"/sys/fs/cgroup", none, "cgroup", none⟩] =
      (.ok (), [syscall_ev.ensure_dir "/sys/fs/cgroup"]) := by
  have := (cgroup_requests_skip_mount happy_env 0 none
    ⟨"/sys/fs/cgroup", none, "cgroup", none⟩ [] rfl).2 rfl
  simpa using this

/-! Claim C2: resolution of rootfsPropagation in libcrun_set_mounts.  An
unknown mode name is not a configuration error: get_mount_flags returns 0
for it and the root transition proceeds with MS_REC alone. -/

theorem set_mounts_first_mount (env : sys_env) (c : crun_container)
    (rootfs : String) (undef : Int) :
    (libcrun_set_mounts env c rootfs undef).2.head? =
      some (.mount_ev "" "/" ""
        (MS_REC ||| (match c.rootfs_propagation with
                     | some n => get_mount_flags n
                     | none => MS_REC ||| MS_SLAVE)) none) := by
  simp only [libcrun_set_mounts]
  repeat' split
  all_goals rfl

/-- Claim C2 counterexample: a container whose rootfsPropagation is the name
bogus, absent from the propagation table, does not make libcrun_set_mounts
fail with a configuration error; in the all-success environment the whole
root transition returns success. -/
theorem set_mounts_bogus_propagation_cex :
    bogus_propagation_c.rootfs_propagation = some "bogus" ∧
    (∀ p ∈ propagation_flags, p.1 ≠ "bogus") ∧
    (libcrun_set_mounts happy_env bogus_propagation_c "/newroot" 0).1 = .ok 0 :=
  ⟨rfl, by decide, rfl⟩

/-- Claim C2 (amended): a rootfsPropagation name not present in the
propagation table resolves to flag value 0, so the host root is remounted
with MS_REC alone and no error is raised for the name; when rootfsPropagation
is unspecified the default MS_REC | MS_SLAVE is used, so the remount flag
word is MS_REC combined with that recursive-slave mode. -/
theorem set_mounts_propagation_resolution (env : sys_env) (c : crun_container)
    (rootfs : String) (undef : Int) :
    (∀ name, c.rootfs_propagation = some name →
      (∀ p ∈ propagation_flags, p.1 ≠ name) →
      (libcrun_set_mounts env c rootfs undef).2.head? =
        some (.mount_ev "" "/" "" MS_REC none)) ∧
    (c.rootfs_propagation = none →
      (libcrun_set_mounts env c rootfs undef).2.head? =
        some (.mount_ev "" "/" "" (MS_REC ||| (MS_REC ||| MS_SLAVE)) none)) := by
  constructor
  · intro name hn habs
    have hz : get_mount_flags name = 0 := (get_mount_flags_eq_zero name).mpr habs
    rw [set_mounts_first_mount, hn]
    simp [hz]
  · intro hn
    rw [set_mounts_first_mount, hn]

/-- Claim C2 witness: at the concrete container with the unknown mode bogus
in the all-success environment, the first issued mount call remounts the
root with MS_REC alone. -/
theorem set_mounts_propagation_resolution_witness :
    (libcrun_set_mounts happy_env bogus_propagation_c "/newroot" 0).2.head? =
      some (.mount_ev "" "/" "" MS_REC none) :=
  (set_mounts_propagation_resolution happy_env bogus_propagation_c "/newroot" 0).1
    "bogus" rfl (by decide)

/-! Claim C3: write order of the identity mapper. -/

/-- Claim C3 counterexample: with a privileged host identity (hostUid = 0)
and every write succeeding, the run completes but writes only the setgroups
file and the uid map; the gid map file is never written, contradicting the
claim that all three files are written on every successful run. -/
theorem usernamespace_gid_map_skipped_cex :
    (libcrun_set_usernamespace happy_env 0 0 0).1 = .ok 0 ∧
    write_paths (libcrun_set_usernamespace happy_env 0 0 0).2 =
      ["/proc/self/setgroups", "/proc/self/uid_map"] :=
  ⟨rfl, rfl⟩

/-- Claim C3 (amended): on every successful run of the identity mapper, the
files written are, in order: setgroups then gid map then uid map when the
host uid is nonzero, and only setgroups then uid map when the host uid is 0
(the gid map write is skipped in the privileged branch); each file written
is written exactly once. -/
theorem usernamespace_write_order (env : sys_env) (host_uid host_gid : Nat)
    (undef : Int)
    (h : ∃ v, (libcrun_set_usernamespace env host_uid host_gid undef).1 = .ok v) :
    write_paths (libcrun_set_usernamespace env host_uid host_gid undef).2 =
      if host_uid = 0 then ["/proc/self/setgroups", "/proc/self/uid_map"]
      else ["/proc/self/setgroups", "/proc/self/gid_map", "/proc/self/uid_map"] := by
  obtain ⟨v, hv⟩ := h
  unfold libcrun_set_usernamespace at hv ⊢
  rcases hsg : env.writeFile "/proc/self/setgroups" "deny" with e | u
  · simp_all
  · by_cases h0 : host_uid = 0
    · subst h0
      rcases hum : env.writeFile "/proc/self/uid_map" "0 0 65536" with e | u2 <;>
        simp_all [write_paths]
    · rcases hgm : env.writeFile "/proc/self/gid_map"
          ("0 " ++ toString host_gid ++ " 1") with e | u2
      · simp_all
      · rcases hum : env.writeFile "/proc/self/uid_map"
            ("0 " ++ toString host_uid ++ " 1") with e | u3 <;>
          simp_all [write_paths]

/-- Claim C3 witness: with host uid and gid 1000 in the all-success
environment the three files are written in the order setgroups, gid map,
uid map. -/
theorem usernamespace_write_order_witness :
    write_paths (libcrun_set_usernamespace happy_env 1000 1000 0).2 =
      ["/proc/self/setgroups", "/proc/self/gid_map", "/proc/self/uid_map"] := by
  simpa using usernamespace_write_order happy_env 1000 1000 0 ⟨0, rfl⟩

end Crun
